import Mathlib

/-!
Verification of the YewChat chat component
(src/YewChat/src/components/chat.rs): the wire-protocol codec
(serde_json round trips of `WebSocketMessage` and the nested
`MessageData`), the presence/message state machine in `Chat::update`,
the construction-time registration in `Chat::create`, and the pure view
projections of `Chat::view` (self/other classification, avatar lookup,
gif detection).

Rust panics (every `.unwrap()` in the source) are modelled by `Option`:
a handler returning `none` aborted with a panic. Machine state is the
pair of lists the component mutates (`users`, `messages`); the frames a
handler passes to `try_send` are returned explicitly.
-/

/-- JSON values as handled by serde_json: null, booleans, numbers (kept
as raw numeral text, since no field of this wire protocol is numeric),
strings, arrays and objects (ordered field lists). -/
inductive Json where
  | null : Json
  | bool : Bool → Json
  | num : String → Json
  | str : String → Json
  | arr : List Json → Json
  | obj : List (String × Json) → Json

/-- Whitespace skipping between JSON tokens, as serde_json does. -/
def skipWs : List Char → List Char
  | [] => []
  | c :: cs => if c = ' ' ∨ c = '\n' ∨ c = '\t' ∨ c = '\r' then skipWs cs else c :: cs

/-- Value of a hexadecimal digit, if the character is one; codepoint
arithmetic (48 is the digit zero, 97 the letter a, 65 the letter A). -/
def hexVal (c : Char) : Option Nat :=
  let n := c.toNat
  if 48 ≤ n ∧ n ≤ 57 then some (n - 48)
  else if 97 ≤ n ∧ n ≤ 102 then some (n - 87)
  else if 65 ≤ n ∧ n ≤ 70 then some (n - 55)
  else none

/-- Single-character escape sequences of JSON strings (backspace is
codepoint 8, form feed codepoint 12). -/
def escChar (e : Char) : Option Char :=
  if e = 'n' then some '\n'
  else if e = 't' then some '\t'
  else if e = 'r' then some '\r'
  else if e = '"' then some '"'
  else if e = '\\' then some '\\'
  else if e = '/' then some '/'
  else if e = 'b' then some (Char.ofNat 8)
  else if e = 'f' then some (Char.ofNat 12)
  else none

/-- Parses the body of a JSON string literal, the opening quote already
consumed, handling the escape sequences serde_json accepts; a `\u`
escape is decoded directly (surrogate pairs never occur on this wire).
Returns the decoded string and the input after the closing quote. -/
def parseStringBody : List Char → Option (String × List Char)
  | [] => none
  | '\\' :: 'u' :: h1 :: h2 :: h3 :: h4 :: rest =>
    match hexVal h1, hexVal h2, hexVal h3, hexVal h4 with
    | some v1, some v2, some v3, some v4 =>
      let n := ((v1 * 16 + v2) * 16 + v3) * 16 + v4
      if n.isValidChar then
        match parseStringBody rest with
        | some (s, r) => some (String.singleton (Char.ofNat n) ++ s, r)
        | none => none
      else none
    | _, _, _, _ => none
  | '\\' :: e :: rest =>
    match escChar e with
    | some c =>
      match parseStringBody rest with
      | some (s, r) => some (String.singleton c ++ s, r)
      | none => none
    | none => none
  | '"' :: rest => some ("", rest)
  | c :: rest =>
    match parseStringBody rest with
    | some (s, r) => some (String.singleton c ++ s, r)
    | none => none

/-- Characters that may occur in a JSON numeral. -/
def isNumChar (c : Char) : Bool :=
  c.isDigit || c = '-' || c = '+' || c = '.' || c = 'e' || c = 'E'

/-- Consumes a numeral greedily; the raw text is kept and never
interpreted, because no field of this client's protocol is numeric. -/
def parseNumRaw : List Char → (List Char × List Char)
  | [] => ([], [])
  | c :: cs =>
    if isNumChar c then
      let p := parseNumRaw cs
      (c :: p.1, p.2)
    else ([], c :: cs)

mutual

/-- Parses one JSON value, consuming leading whitespace; the fuel bounds
the recursion and is chosen larger than the input needs. -/
def parseVal : Nat → List Char → Option (Json × List Char)
  | 0, _ => none
  | Nat.succ fuel, cs =>
    match skipWs cs with
    | 'n' :: 'u' :: 'l' :: 'l' :: rest => some (Json.null, rest)
    | 't' :: 'r' :: 'u' :: 'e' :: rest => some (Json.bool true, rest)
    | 'f' :: 'a' :: 'l' :: 's' :: 'e' :: rest => some (Json.bool false, rest)
    | '"' :: rest =>
      match parseStringBody rest with
      | some (s, r) => some (Json.str s, r)
      | none => none
    | '[' :: rest =>
      match skipWs rest with
      | ']' :: r => some (Json.arr [], r)
      | r => parseArrItems fuel r []
    | '\x7b' :: rest =>
      match skipWs rest with
      | '\x7d' :: r => some (Json.obj [], r)
      | r => parseObjItems fuel r []
    | c :: rest =>
      if c = '-' ∨ c.isDigit then
        some (Json.num (String.mk (parseNumRaw (c :: rest)).1), (parseNumRaw (c :: rest)).2)
      else none
    | [] => none

/-- Parses the remaining items of a JSON array: the opening bracket is
consumed, the next item is not. -/
def parseArrItems : Nat → List Char → List Json → Option (Json × List Char)
  | 0, _, _ => none
  | Nat.succ fuel, cs, acc =>
    match parseVal fuel cs with
    | some (v, rest) =>
      match skipWs rest with
      | ',' :: r => parseArrItems fuel r (acc ++ [v])
      | ']' :: r => some (Json.arr (acc ++ [v]), r)
      | _ => none
    | none => none

/-- Parses the remaining fields of a JSON object: the opening brace is
consumed, the next key is not. -/
def parseObjItems : Nat → List Char → List (String × Json) → Option (Json × List Char)
  | 0, _, _ => none
  | Nat.succ fuel, cs, acc =>
    match skipWs cs with
    | '"' :: rest =>
      match parseStringBody rest with
      | some (k, r1) =>
        match skipWs r1 with
        | ':' :: r2 =>
          match parseVal fuel r2 with
          | some (v, r3) =>
            match skipWs r3 with
            | ',' :: r4 => parseObjItems fuel r4 (acc ++ [(k, v)])
            | '\x7d' :: r4 => some (Json.obj (acc ++ [(k, v)]), r4)
            | _ => none
          | none => none
        | _ => none
      | none => none
    | _ => none

end

/-- Models serde_json text parsing: parse one value and require only
trailing whitespace after it. -/
def parseJson (s : String) : Option Json :=
  match parseVal (2 * s.length + 4) s.data with
  | some (j, rest) => if skipWs rest = [] then some j else none
  | none => none

/-- Message kinds of the wire protocol, as in enum MsgTypes; serde's
lowercase rename makes the wire tags "users", "register", "message". -/
inductive MsgTypes where
  | Users : MsgTypes
  | Register : MsgTypes
  | Message : MsgTypes
deriving Repr, DecidableEq

/-- Wire envelope, as in struct WebSocketMessage: camelCase keys on the
wire, both payload fields are Option and so individually optional. -/
structure WebSocketMessage where
  message_type : MsgTypes
  data_array : Option (List String)
  data : Option String
deriving Repr, DecidableEq

/-- Nested payload of a message envelope, as in struct MessageData:
both fields are required strings. -/
structure MessageData where
  «from» : String
  message : String
deriving Repr, DecidableEq

/-- Value bound to a key in a JSON object (first binding; rejection of
duplicate keys, which serde performs, is not modelled — no claim and no
concrete input here has duplicate keys). -/
def getField (fs : List (String × Json)) (k : String) : Option Json :=
  match fs.find? (fun p => p.1 == k) with
  | some p => some p.2
  | none => none

/-- Decodes the lowercase tag of MsgTypes; any other value is a serde
"unknown variant" error, never a silent coercion. -/
def decodeMsgTypes : Json → Except String MsgTypes
  | Json.str "users" => Except.ok MsgTypes.Users
  | Json.str "register" => Except.ok MsgTypes.Register
  | Json.str "message" => Except.ok MsgTypes.Message
  | _ => Except.error "unknown variant"

/-- Decodes an Option String field: absent and null both give none. -/
def decodeOptStr : Option Json → Except String (Option String)
  | none => Except.ok none
  | some Json.null => Except.ok none
  | some (Json.str s) => Except.ok (some s)
  | some _ => Except.error "invalid type: expected string"

/-- Decodes a JSON array whose items must all be strings. -/
def decodeStrList : List Json → Except String (List String)
  | [] => Except.ok []
  | Json.str s :: rest =>
    match decodeStrList rest with
    | Except.ok xs => Except.ok (s :: xs)
    | Except.error e => Except.error e
  | _ :: _ => Except.error "invalid type: expected string"

/-- Decodes an Option (Vec String) field: absent and null both none. -/
def decodeOptStrArr : Option Json → Except String (Option (List String))
  | none => Except.ok none
  | some Json.null => Except.ok none
  | some (Json.arr xs) =>
    match decodeStrList xs with
    | Except.ok l => Except.ok (some l)
    | Except.error e => Except.error e
  | some _ => Except.error "invalid type: expected a sequence"

/-- Decodes struct WebSocketMessage from a JSON value: messageType is
required, dataArray and data are Option fields so absence is none, not
an error; unknown extra fields are ignored, as serde does without
deny_unknown_fields. -/
def decodeWebSocketMessage (j : Json) : Except String WebSocketMessage :=
  match j with
  | Json.obj fs =>
    match getField fs "messageType" with
    | none => Except.error "missing field messageType"
    | some tj =>
      match decodeMsgTypes tj with
      | Except.error e => Except.error e
      | Except.ok t =>
        match decodeOptStrArr (getField fs "dataArray") with
        | Except.error e => Except.error e
        | Except.ok da =>
          match decodeOptStr (getField fs "data") with
          | Except.error e => Except.error e
          | Except.ok d => Except.ok ⟨t, da, d⟩
  | _ => Except.error "invalid type: expected struct WebSocketMessage"

/-- Decodes struct MessageData: both fields required strings. -/
def decodeMessageData (j : Json) : Except String MessageData :=
  match j with
  | Json.obj fs =>
    match getField fs "from" with
    | some (Json.str f) =>
      match getField fs "message" with
      | some (Json.str m) => Except.ok ⟨f, m⟩
      | some _ => Except.error "invalid type for field message"
      | none => Except.error "missing field message"
    | some _ => Except.error "invalid type for field from"
    | none => Except.error "missing field from"
  | _ => Except.error "invalid type: expected struct MessageData"

/-- Models serde_json::from_str for WebSocketMessage: text to JSON value,
then decode; a parse failure is an error value, exactly as in Rust. -/
def from_str_ws (s : String) : Except String WebSocketMessage :=
  match parseJson s with
  | none => Except.error "syntax error"
  | some j => decodeWebSocketMessage j

/-- Models serde_json::from_str for MessageData, the nested second stage
of decoding a message envelope. -/
def from_str_message_data (s : String) : Except String MessageData :=
  match parseJson s with
  | none => Except.error "syntax error"
  | some j => decodeMessageData j

/-- Hexadecimal digit character for control-character escapes
(codepoint 48 is the digit zero; 87 + 10 is the letter a). -/
def hexDigit (n : Nat) : Char :=
  Char.ofNat (if n ≤ 9 then 48 + n else 87 + n)

/-- Escaping of one character inside a serde_json string literal. -/
def escapeChar (c : Char) : String :=
  if c = '"' then "\\\""
  else if c = '\\' then "\\\\"
  else if c = '\n' then "\\n"
  else if c = '\t' then "\\t"
  else if c = '\r' then "\\r"
  else if c = Char.ofNat 8 then "\\b"
  else if c = Char.ofNat 12 then "\\f"
  else if c.toNat < 32 then
    "\\u00" ++ String.singleton (hexDigit (c.toNat / 16)) ++ String.singleton (hexDigit (c.toNat % 16))
  else String.singleton c

/-- Encoded JSON string literal for s. -/
def encodeStr (s : String) : String :=
  "\"" ++ String.join (s.data.map escapeChar) ++ "\""

/-- Wire tag of a message kind (serde lowercase rename). -/
def msgTypeTag : MsgTypes → String
  | MsgTypes.Users => "users"
  | MsgTypes.Register => "register"
  | MsgTypes.Message => "message"

/-- Encoding of an Option String field (None serializes as null). -/
def encodeOptStr : Option String → String
  | none => "null"
  | some s => encodeStr s

/-- Encoding of an Option (Vec String) field. -/
def encodeOptStrArr : Option (List String) → String
  | none => "null"
  | some xs => "[" ++ String.intercalate "," (xs.map encodeStr) ++ "]"

/-- Models serde_json::to_string for WebSocketMessage: fields in
declaration order with camelCase keys, as the derived Serialize emits. -/
def ws_to_string (m : WebSocketMessage) : String :=
  "\x7b\"messageType\":" ++ encodeStr (msgTypeTag m.message_type) ++
    ",\"dataArray\":" ++ encodeOptStrArr m.data_array ++
    ",\"data\":" ++ encodeOptStr m.data ++ "\x7d"

/-- Presence directory entry, as in struct UserProfile. -/
structure UserProfile where
  name : String
  avatar : String
deriving Repr, DecidableEq

/-- Avatar URL built in the Users branch of Chat::update, exactly the
format! call of the source: a pure function of the user's name. -/
def avatarUrl (u : String) : String :=
  "https://api.dicebear.com/8.x/adventurer-neutral/svg?seed=" ++ u

/-- Mutable component state of struct Chat that the state machine
touches: the presence directory and the message log. -/
structure ChatState where
  users : List UserProfile
  messages : List MessageData
deriving Repr, DecidableEq

/-- Chat state as initialized in Chat::create: both lists empty. -/
def initialChatState : ChatState := ⟨[], []⟩

/-- Handler for Msg::HandleMsg(s) in Chat::update. Every `.unwrap()` of
the Rust source is modelled by returning none (the panic aborts the
handler); some (st, b) carries the new state and the bool Chat::update
returns, which is the re-render request. -/
def handleMsg (st : ChatState) (s : String) : Option (ChatState × Bool) :=
  match from_str_ws s with
  | Except.error _ => none
  | Except.ok msg =>
    match msg.message_type with
    | MsgTypes.Users =>
      let users_from_message := msg.data_array.getD []
      some ({ st with
              users := users_from_message.map
                (fun u => { name := u, avatar := avatarUrl u }) }, true)
    | MsgTypes.Message =>
      match msg.data with
      | none => none
      | some d =>
        match from_str_message_data d with
        | Except.error _ => none
        | Except.ok message_data =>
          some ({ st with messages := st.messages ++ [message_data] }, true)
    | MsgTypes.Register => some (st, false)

/-- Models Chat::create: try_send is called exactly once with the encoded
Register envelope (its Result only selects a debug log line), and the
state starts with empty users and messages. The list holds the frames
passed to try_send, in order. -/
def chatCreate (username : String) : ChatState × List String :=
  (initialChatState,
   [ws_to_string { message_type := MsgTypes.Register, data := some username, data_array := none }])

/-- Observable outcome of Msg::SubmitMessage: the frames passed to
try_send, the input field content afterwards, and the bool returned by
Chat::update. -/
structure SubmitOutcome where
  sends : List String
  inputAfter : Option String
  rerender : Bool
deriving Repr, DecidableEq

/-- Handler for Msg::SubmitMessage: inputVal is the value of the input
element when the NodeRef cast succeeds, and sendOk is the Result of
try_send. In the source an Err(e) only selects a debug log line, the
input is cleared by set_value("") on every attempted send, and update
returns false. -/
def submitMessage (inputVal : Option String) (_sendOk : Bool) : SubmitOutcome :=
  match inputVal with
  | some v =>
    { sends := [ws_to_string { message_type := MsgTypes.Message, data := some v, data_array := none }],
      inputAfter := some "", rerender := false }
  | none => { sends := [], inputAfter := none, rerender := false }

/-- Models Rust str::ends_with for string patterns: an exact suffix
match on the character sequence (for valid UTF-8, byte suffixes coincide
with character-list suffixes). -/
def ends_with (s pat : String) : Bool :=
  List.isSuffixOf pat.data s.data

/-- Body classification of the message view: image renders an img tag,
text renders a span. -/
inductive BodyClass where
  | image : BodyClass
  | text : BodyClass
deriving Repr, DecidableEq

/-- View projection of the message body: the if on
m.message.ends_with(".gif") in Chat::view. -/
def classifyBody (body : String) : BodyClass :=
  if ends_with body ".gif" then BodyClass.image else BodyClass.text

/-- View projection of self/other: u.name == cur_username and
m.from == cur_username in Chat::view. -/
def is_self (name cur_username : String) : Bool :=
  name == cur_username

/-- Avatar lookup of the message view: first directory entry whose name
equals the sender, with unwrap_or_default falling back to "". -/
def avatarFor (users : List UserProfile) (sender : String) : String :=
  match (users.find? (fun u => u.name == sender)).map UserProfile.avatar with
  | some a => a
  | none => ""

/-- Concrete frame: text that is not JSON at all. -/
def frame_bad_text : String := "notjson"

/-- Concrete frame: a message envelope whose data field is absent. -/
def frame_msg_no_data : String := "\x7b\"messageType\":\"message\"\x7d"

/-- Concrete frame: a message envelope whose data decodes to an object
missing the required field from. -/
def frame_msg_bad_nested : String :=
  "\x7b\"messageType\":\"message\",\"data\":\"\x7b\x7d\"\x7d"

/-- Concrete frame: a users envelope with a duplicated name in
dataArray. -/
def frame_users_dup : String :=
  "\x7b\"messageType\":\"users\",\"dataArray\":[\"carol\",\"dave\",\"carol\"],\"data\":null\x7d"

/-- Concrete frame: a users envelope with no dataArray field at all. -/
def frame_users_absent : String := "\x7b\"messageType\":\"users\"\x7d"

/-- Concrete frame: a users envelope with dataArray null. -/
def frame_users_null : String :=
  "\x7b\"messageType\":\"users\",\"dataArray\":null,\"data\":null\x7d"

/-- Concrete frame: a well-formed message envelope from dave saying yo. -/
def frame_message_dave : String :=
  "\x7b\"messageType\":\"message\",\"dataArray\":null,\"data\":\"\x7b\\\"from\\\":\\\"dave\\\",\\\"message\\\":\\\"yo\\\"\x7d\"\x7d"

/-- Concrete frame: a register envelope, which the client never expects
inbound. -/
def frame_register_eve : String :=
  "\x7b\"messageType\":\"register\",\"data\":\"eve\"\x7d"

/-- Helper: the Users branch of handleMsg, for a decoded envelope of
kind Users and data_array da, replaces the directory with the mapped
profiles and requests a re-render. -/
theorem handleMsg_users_eq (st : ChatState) (s : String) (msg : WebSocketMessage)
    (h : from_str_ws s = Except.ok msg) (hk : msg.message_type = MsgTypes.Users) :
    handleMsg st s =
      some ({ st with users := (msg.data_array.getD []).map (fun u => ⟨u, avatarUrl u⟩) }, true) := by
  simp [handleMsg, h, hk]

/-- C1 counterexample: at the unparseable frame "notjson" the codec does
return a decode error value, but the handling function crashes (none
models the panic of `.unwrap()`); at a message envelope with data absent
the handler also crashes. The claim that handling never crashes on
malformed input is therefore false. -/
theorem C1_counterexample :
    from_str_ws frame_bad_text = Except.error "syntax error" ∧
    handleMsg initialChatState frame_bad_text = none ∧
    handleMsg initialChatState frame_msg_no_data = none := by
  exact ⟨rfl, rfl, rfl⟩

/-- C1 (amended): malformed input is surfaced as a decode error value by
the stage that detects it, but Msg::HandleMsg unwraps every such result,
so the handling function panics (returns none) instead of continuing:
on unparseable text, on a message envelope with absent data, and on a
malformed nested payload. -/
theorem C1_amended_decode_panics (st : ChatState) (s : String) :
    (∀ e, from_str_ws s = Except.error e → handleMsg st s = none) ∧
    (∀ msg, from_str_ws s = Except.ok msg → msg.message_type = MsgTypes.Message →
        msg.data = none → handleMsg st s = none) ∧
    (∀ msg d e, from_str_ws s = Except.ok msg → msg.message_type = MsgTypes.Message →
        msg.data = some d → from_str_message_data d = Except.error e →
        handleMsg st s = none) := by
  refine ⟨?_, ?_, ?_⟩
  · intro e h; simp [handleMsg, h]
  · intro msg h hk hd; simp [handleMsg, h, hk, hd]
  · intro msg d e h hk hd hm; simp [handleMsg, h, hk, hd, hm]

/-- Witness for the amended C1 at the three concrete malformed frames. -/
theorem C1_amended_decode_panics_witness :
    handleMsg initialChatState frame_bad_text = none ∧
    handleMsg initialChatState frame_msg_no_data = none ∧
    handleMsg initialChatState frame_msg_bad_nested = none :=
  ⟨(C1_amended_decode_panics initialChatState frame_bad_text).1 "syntax error" rfl,
   (C1_amended_decode_panics initialChatState frame_msg_no_data).2.1
     ⟨MsgTypes.Message, none, none⟩ rfl rfl rfl,
   (C1_amended_decode_panics initialChatState frame_msg_bad_nested).2.2
     ⟨MsgTypes.Message, none, some "\x7b\x7d"⟩ "\x7b\x7d" "missing field from" rfl rfl rfl rfl⟩

/-- C2: a users envelope with name list L replaces the whole directory
with exactly one profile per name of L, in the order of L, each avatar
the pure function avatarUrl of the name alone; duplicates in L yield
duplicate profiles (the map preserves them), the message log is
untouched, and applying the same frame from any two states yields the
same directory (so re-applying the same L gives identical avatar URLs). -/
theorem C2_users_replace (st st2 : ChatState) (s : String) (msg : WebSocketMessage)
    (L : List String)
    (h : from_str_ws s = Except.ok msg) (hk : msg.message_type = MsgTypes.Users)
    (hd : msg.data_array = some L) :
    handleMsg st s = some ({ st with users := L.map (fun u => ⟨u, avatarUrl u⟩) }, true) ∧
    (∀ st' b, handleMsg st s = some (st', b) →
      st'.users.length = L.length ∧
      st'.users.map UserProfile.name = L ∧
      (∀ p ∈ st'.users, p.avatar = avatarUrl p.name) ∧
      st'.messages = st.messages) ∧
    (∀ r r2, handleMsg st s = some r → handleMsg st2 s = some r2 → r.1.users = r2.1.users) := by
  have hmain : handleMsg st s
      = some ({ st with users := L.map (fun u => ⟨u, avatarUrl u⟩) }, true) := by
    rw [handleMsg_users_eq st s msg h hk, hd]
    rfl
  have hmain2 : handleMsg st2 s
      = some ({ st2 with users := L.map (fun u => ⟨u, avatarUrl u⟩) }, true) := by
    rw [handleMsg_users_eq st2 s msg h hk, hd]
    rfl
  refine ⟨hmain, ?_, ?_⟩
  · intro st' b hb
    rw [hmain] at hb
    injection hb with hb1
    injection hb1 with hst hbool
    subst hst
    refine ⟨by simp, by rw [List.map_map]; exact List.map_id L, ?_, rfl⟩
    intro p hp
    simp only [List.mem_map] at hp
    obtain ⟨a, _, rfl⟩ := hp
    rfl
  · intro r r2 h1 h2
    rw [hmain] at h1
    rw [hmain2] at h2
    injection h1 with h1'
    injection h2 with h2'
    rw [← h1', ← h2']

/-- Witness for C2 at a concrete users frame whose list contains the
name carol twice: the previous directory is fully replaced, duplicates
survive, order is kept, and the log is unchanged. -/
theorem C2_users_replace_witness :
    handleMsg ⟨[⟨"old", "x"⟩], [⟨"m", "n"⟩]⟩ frame_users_dup
      = some (⟨[⟨"carol", avatarUrl "carol"⟩, ⟨"dave", avatarUrl "dave"⟩,
                ⟨"carol", avatarUrl "carol"⟩], [⟨"m", "n"⟩]⟩, true) :=
  (C2_users_replace ⟨[⟨"old", "x"⟩], [⟨"m", "n"⟩]⟩ initialChatState frame_users_dup
    ⟨MsgTypes.Users, some ["carol", "dave", "carol"], none⟩
    ["carol", "dave", "carol"] rfl rfl rfl).1

/-- C3: a message envelope whose data decodes to a MessageData md
appends exactly md at the end of the log, leaving all earlier entries
unchanged (the new log is the old one with md appended, so its length
grew by one and its prefix is intact), and applying the same frame again
appends a second copy: no deduplication. -/
theorem C3_message_append (st : ChatState) (s d : String) (msg : WebSocketMessage)
    (md : MessageData)
    (h : from_str_ws s = Except.ok msg) (hk : msg.message_type = MsgTypes.Message)
    (hd : msg.data = some d) (hm : from_str_message_data d = Except.ok md) :
    handleMsg st s = some ({ st with messages := st.messages ++ [md] }, true) ∧
    (st.messages ++ [md]).length = st.messages.length + 1 ∧
    (st.messages ++ [md]).take st.messages.length = st.messages ∧
    handleMsg { st with messages := st.messages ++ [md] } s
      = some ({ st with messages := st.messages ++ [md, md] }, true) := by
  have hmain : ∀ st0 : ChatState,
      handleMsg st0 s = some ({ st0 with messages := st0.messages ++ [md] }, true) := by
    intro st0
    simp [handleMsg, h, hk, hd, hm]
  refine ⟨hmain st, by simp, ?_, ?_⟩
  · exact List.take_left st.messages [md]
  · have h2 := hmain { st with messages := st.messages ++ [md] }
    simpa [List.append_assoc] using h2

/-- Witness for C3 at the concrete dave/yo frame, applied twice from a
state with one prior entry: each application appends one entry. -/
theorem C3_message_append_witness :
    handleMsg ⟨[⟨"p", "q"⟩], [⟨"m", "n"⟩]⟩ frame_message_dave
      = some (⟨[⟨"p", "q"⟩], [⟨"m", "n"⟩, ⟨"dave", "yo"⟩]⟩, true) ∧
    handleMsg ⟨[⟨"p", "q"⟩], [⟨"m", "n"⟩, ⟨"dave", "yo"⟩]⟩ frame_message_dave
      = some (⟨[⟨"p", "q"⟩], [⟨"m", "n"⟩, ⟨"dave", "yo"⟩, ⟨"dave", "yo"⟩]⟩, true) := by
  constructor
  · exact (C3_message_append ⟨[⟨"p", "q"⟩], [⟨"m", "n"⟩]⟩ frame_message_dave
      "\x7b\"from\":\"dave\",\"message\":\"yo\"\x7d"
      ⟨MsgTypes.Message, none, some "\x7b\"from\":\"dave\",\"message\":\"yo\"\x7d"⟩
      ⟨"dave", "yo"⟩ rfl rfl rfl rfl).1
  · have h4 := (C3_message_append ⟨[⟨"p", "q"⟩], [⟨"m", "n"⟩]⟩ frame_message_dave
      "\x7b\"from\":\"dave\",\"message\":\"yo\"\x7d"
      ⟨MsgTypes.Message, none, some "\x7b\"from\":\"dave\",\"message\":\"yo\"\x7d"⟩
      ⟨"dave", "yo"⟩ rfl rfl rfl rfl).2.2.2
    simpa using h4

/-- C4: the view classifies a body as an image exactly when it ends with
the literal, case-sensitive suffix ".gif"; "cat.gif" is an image, while
"cat.gif.txt" and "CAT.GIF" are text, and ".png"/".jpg" endings are
text. -/
theorem C4_classify_gif :
    (∀ b : String, classifyBody b = BodyClass.image ↔ ∃ p : String, b = p ++ ".gif") ∧
    classifyBody "cat.gif" = BodyClass.image ∧
    classifyBody "cat.gif.txt" = BodyClass.text ∧
    classifyBody "CAT.GIF" = BodyClass.text ∧
    classifyBody "cat.png" = BodyClass.text ∧
    classifyBody "cat.jpg" = BodyClass.text := by
  refine ⟨fun b => ?_, by decide, by decide, by decide, by decide, by decide⟩
  unfold classifyBody
  constructor
  · intro h
    by_cases hb : ends_with b ".gif"
    · have hsuf : (".gif" : String).data <:+ b.data := by
        have := hb
        unfold ends_with at this
        simpa using this
      obtain ⟨t, ht⟩ := hsuf
      refine ⟨String.mk t, String.ext ?_⟩
      rw [String.data_append]
      exact ht.symm
    · rw [if_neg hb] at h
      cases h
  · rintro ⟨p, rfl⟩
    have hsuf : (".gif" : String).data <:+ (p ++ (".gif" : String)).data := by
      rw [String.data_append]
      exact ⟨p.data, rfl⟩
    have hb : ends_with (p ++ ".gif") ".gif" = true := by
      unfold ends_with
      exact List.isSuffixOf_iff_suffix.2 hsuf
    rw [if_pos hb]

/-- C5: on submit with an input element present, the input is cleared to
"" whatever try_send returned, the whole outcome is independent of the
send result (a failure is only logged, never surfaced), exactly one
frame is handed to try_send (no retry), the empty string is not blocked
and is sent as an envelope with data "", and no re-render is
requested. -/
theorem C5_submit_fire_and_forget :
    (∀ (v : String) (ok1 ok2 : Bool), submitMessage (some v) ok1 = submitMessage (some v) ok2) ∧
    (∀ (v : String) (ok : Bool), (submitMessage (some v) ok).inputAfter = some "") ∧
    (∀ (v : String) (ok : Bool), (submitMessage (some v) ok).sends
        = [ws_to_string ⟨MsgTypes.Message, none, some v⟩]) ∧
    (∀ ok : Bool, (submitMessage (some "") ok).sends
        = [ws_to_string ⟨MsgTypes.Message, none, some ""⟩]) ∧
    (∀ ok : Bool, (submitMessage (some "") ok).sends.length = 1) ∧
    (∀ (v : String) (ok : Bool), (submitMessage (some v) ok).rerender = false) :=
  ⟨fun _ _ _ => rfl, fun _ _ => rfl, fun _ _ => rfl, fun _ => rfl, fun _ => rfl,
   fun _ _ => rfl⟩

/-- C6: the self/other classification is exact string equality with no
normalization: is_self n c is true exactly when n = c, so bob matches
bob and Bob does not match bob. -/
theorem C6_is_self_exact :
    (∀ n c : String, is_self n c = true ↔ n = c) ∧
    is_self "bob" "bob" = true ∧
    is_self "Bob" "bob" = false := by
  refine ⟨fun n c => ?_, by decide, by decide⟩
  unfold is_self
  exact beq_iff_eq

/-- C7: avatar lookup returns the avatar of the first directory profile
whose name equals the sender, and when no profile matches it returns the
empty string (unwrap_or_default) rather than failing. -/
theorem C7_avatar_lookup :
    (∀ (users : List UserProfile) (sender : String),
        (∀ u ∈ users, u.name ≠ sender) → avatarFor users sender = "") ∧
    (∀ (pre post : List UserProfile) (u : UserProfile) (sender : String),
        u.name = sender → (∀ v ∈ pre, v.name ≠ sender) →
        avatarFor (pre ++ u :: post) sender = u.avatar) := by
  constructor
  · intro users sender h
    have hnone : users.find? (fun u => u.name == sender) = none := by
      rw [List.find?_eq_none]
      intro x hx
      simp [h x hx]
    simp [avatarFor, hnone]
  · intro pre post u sender hu hpre
    have h1 : pre.find? (fun v => v.name == sender) = none := by
      rw [List.find?_eq_none]
      intro x hx
      simp [hpre x hx]
    have h2 : (u :: post).find? (fun v => v.name == sender) = some u :=
      List.find?_cons_of_pos post (by simp [hu])
    simp [avatarFor, List.find?_append, h1, h2]

/-- Witness for C7: a miss in the empty directory gives "", and with two
profiles both named dave the first one's avatar is returned. -/
theorem C7_avatar_lookup_witness :
    avatarFor [] "dave" = "" ∧
    avatarFor [⟨"dave", "u1"⟩, ⟨"dave", "u2"⟩] "dave" = "u1" := by
  constructor
  · exact C7_avatar_lookup.1 [] "dave" (by intro u hu; cases hu)
  · have h := C7_avatar_lookup.2 [] [⟨"dave", "u2"⟩] ⟨"dave", "u1"⟩ "dave" rfl
      (by intro v hv; cases hv)
    simpa using h

/-- C8: constructing the client with identity u sends exactly one frame,
the encoded Register envelope with data u and data_array absent, and the
initial state has empty users and messages; for the concrete identity
carol the sent frame decodes back to exactly that Register envelope. -/
theorem C8_create_register (u : String) :
    (chatCreate u).1 = initialChatState ∧
    (chatCreate u).1.users = [] ∧
    (chatCreate u).1.messages = [] ∧
    (chatCreate u).2 = [ws_to_string ⟨MsgTypes.Register, none, some u⟩] ∧
    (chatCreate u).2.length = 1 ∧
    from_str_ws (ws_to_string ⟨MsgTypes.Register, none, some "carol"⟩)
      = Except.ok ⟨MsgTypes.Register, none, some "carol"⟩ :=
  ⟨rfl, rfl, rfl, rfl, rfl, rfl⟩

/-- C9: a users envelope whose dataArray is absent or null decodes
successfully (not a decode error: the Option field decodes to none), and
the handler replaces the presence directory with the empty directory,
leaving the message log unchanged. -/
theorem C9_users_absent_or_null (st : ChatState) (s : String) (msg : WebSocketMessage)
    (fs : List (String × Json))
    (h : from_str_ws s = Except.ok msg) (hk : msg.message_type = MsgTypes.Users)
    (hd : msg.data_array = none) :
    handleMsg st s = some ({ st with users := [] }, true) ∧
    (getField fs "dataArray" = none ∨ getField fs "dataArray" = some Json.null →
      decodeOptStrArr (getField fs "dataArray") = Except.ok none) := by
  constructor
  · rw [handleMsg_users_eq st s msg h hk, hd]
    rfl
  · rintro (hf | hf) <;> rw [hf] <;> rfl

/-- Witness for C9 at two concrete frames, one with dataArray absent and
one with dataArray null: in both the directory empties and the log
stays. -/
theorem C9_users_absent_or_null_witness :
    handleMsg ⟨[⟨"p", "q"⟩], [⟨"m", "n"⟩]⟩ frame_users_absent
      = some (⟨[], [⟨"m", "n"⟩]⟩, true) ∧
    handleMsg ⟨[⟨"p", "q"⟩], [⟨"m", "n"⟩]⟩ frame_users_null
      = some (⟨[], [⟨"m", "n"⟩]⟩, true) :=
  ⟨(C9_users_absent_or_null ⟨[⟨"p", "q"⟩], [⟨"m", "n"⟩]⟩ frame_users_absent
      ⟨MsgTypes.Users, none, none⟩ [] rfl rfl rfl).1,
   (C9_users_absent_or_null ⟨[⟨"p", "q"⟩], [⟨"m", "n"⟩]⟩ frame_users_null
      ⟨MsgTypes.Users, none, none⟩ [] rfl rfl rfl).1⟩

/-- C10: an inbound envelope of kind Register falls through to the
`_ => false` arm: the state (presence directory and message log) is
returned exactly unchanged and no re-render is requested. -/
theorem C10_register_noop (st : ChatState) (s : String) (msg : WebSocketMessage)
    (h : from_str_ws s = Except.ok msg) (hk : msg.message_type = MsgTypes.Register) :
    handleMsg st s = some (st, false) := by
  simp [handleMsg, h, hk]

/-- Witness for C10 at a concrete inbound register envelope and a
nonempty state: nothing changes and the returned bool is false. -/
theorem C10_register_noop_witness :
    handleMsg ⟨[⟨"p", "q"⟩], [⟨"m", "n"⟩]⟩ frame_register_eve
      = some (⟨[⟨"p", "q"⟩], [⟨"m", "n"⟩]⟩, false) :=
  C10_register_noop ⟨[⟨"p", "q"⟩], [⟨"m", "n"⟩]⟩ frame_register_eve
    ⟨MsgTypes.Register, none, some "eve"⟩ rfl rfl
